import Mathlib

/-!
Shallow embedding of the SIGET traffic-coordination system
(`src/traffic_server.py` and `src/traffic_light.py`).

Conventions of the embedding:
* Python dictionaries become association lists `List (String × α)` with
  first-match `List.lookup`; insertion (`d[k] = v`) is `dict_set`, which
  overwrites an existing binding in place and otherwise appends, and
  deletion (`del d[k]`) is `dict_del`.
* `time.time()` becomes an explicit `now : Nat` argument at every call
  site that reads the clock.
* A socket is an opaque `Nat` handle.  `socket.send` appends to a
  `sent_log`; `socket.close()` appends the handle to `closed_sockets`.
* `threading.Timer(5.0, f)` becomes an entry appended to
  `pending_timers` recording the delay and the name of the deferred
  action.
* The reentrant `clients_lock` is modelled by its hold count
  `clients_lock_count`; `acquire` increments it and `release` decrements
  it, where the `RuntimeError` swallowed on over-release makes the
  decrement saturating (exactly `Nat` subtraction).
-/

/-- States of a traffic light, from the `TrafficLightState` enum in
`src/traffic_light.py`. -/
inductive TrafficLightState where
  | RED
  | YELLOW
  | GREEN
deriving DecidableEq, Repr

/-- Per-client record stored by the server in `self.clients`
(`register_client` in `src/traffic_server.py`).  The `id`, `socket` and
`address` entries of the Python dict are kept outside this record (the id
is the registry key and the socket lives in `client_sockets`). -/
structure ClientInfo where
  intersection : String
  position : Int × Int
  state : String
  last_heartbeat : Nat
  state_changes : Nat
deriving DecidableEq, Repr

/-- An inbound JSON message as the server dispatcher reads it: a `type`
tag plus the optional fields the handlers extract with `.get`. -/
structure InMessage where
  type : String
  intersection : Option String
  position : Option (Int × Int)
  state : Option String
deriving DecidableEq, Repr

/-- Outbound messages the server writes to client sockets. -/
inductive OutMessage where
  | registration_confirmed (server_time : Nat) (client_id : String)
  | sync_request (timestamp : Nat)
  | emergency_override (state : String) (timestamp : Nat)
      (target_intersection : Option String)
deriving DecidableEq, Repr

/-- The mutable state of `TrafficServer`: registry dictionaries, the
`system_state` record, the `stats` counters, the lock model and the
observable effect logs. -/
structure ServerState where
  clients : List (String × ClientInfo)
  client_sockets : List (String × Nat)
  client_locks : List String
  emergency_mode : Bool
  sync_in_progress : Bool
  last_sync : Nat
  total_clients : Nat
  messages_processed : Nat
  sync_operations : Nat
  emergency_overrides : Nat
  deadlock_preventions : Nat
  clients_lock_count : Nat
  active_locks : List String
  sent_log : List (String × OutMessage)
  closed_sockets : List Nat
  pending_timers : List (Nat × String)
deriving DecidableEq, Repr

/-- Dictionary write `d[k] = v`: overwrite the binding of `k` if present,
otherwise append a new binding. -/
def dict_set {α : Type} (l : List (String × α)) (k : String) (v : α) :
    List (String × α) :=
  if (l.lookup k).isSome then
    l.map (fun p => if p.1 = k then (k, v) else p)
  else
    l ++ [(k, v)]

/-- Dictionary deletion `del d[k]`. -/
def dict_del {α : Type} (l : List (String × α)) (k : String) :
    List (String × α) :=
  l.filter (fun p => p.1 ≠ k)

/-- Python `set.add`. -/
def set_insert (l : List String) (x : String) : List String :=
  if x ∈ l then l else l ++ [x]

/-- The server's fresh state as built by `TrafficServer.__init__` at
clock time `now` (`last_sync` is initialised to `time.time()`). -/
def initial_server_state (now : Nat) : ServerState :=
  { clients := []
    client_sockets := []
    client_locks := []
    emergency_mode := false
    sync_in_progress := false
    last_sync := now
    total_clients := 0
    messages_processed := 0
    sync_operations := 0
    emergency_overrides := 0
    deadlock_preventions := 0
    clients_lock_count := 0
    active_locks := []
    sent_log := []
    closed_sockets := []
    pending_timers := [] }

/-- The fixed global resource order `self.resource_order`. -/
def resource_order : List String :=
  ["system_lock", "clients_lock", "message_lock"]

/-- Sort key used by `acquire_locks_in_order`:
`self.resource_order.index(x) if x in self.resource_order else 999`. -/
def lock_sort_key (x : String) : Nat :=
  match resource_order.indexOf? x with
  | some i => i
  | none => 999

/-- The `sorted(lock_names, key=...)` call of `acquire_locks_in_order`:
Python sorts stably by the key, and any stable sort under the induced
key preorder produces the same list, so the stable `insertionSort` is an
extensionally faithful model of it. -/
def sort_locks (lock_names : List String) : List String :=
  List.insertionSort (fun a b => lock_sort_key a ≤ lock_sort_key b) lock_names

/-- One iteration of the acquisition loop in `acquire_locks_in_order`:
only `clients_lock` is a real lock; `system_lock` and `message_lock` are
simulated (`pass`), so they are neither acquired nor recorded. -/
def acquire_step (acc : ServerState × List String) (lock_name : String) :
    ServerState × List String :=
  if lock_name = "clients_lock" then
    ({ acc.1 with clients_lock_count := acc.1.clients_lock_count + 1 },
     acc.2 ++ ["clients_lock"])
  else
    acc

/-- `TrafficServer.acquire_locks_in_order`: sort the requested lock names
by the fixed resource order, acquire each in turn, record the acquired
names in `active_locks`, bump the `deadlock_preventions` counter, and
return the state together with the list of acquired lock names. -/
def acquire_locks_in_order (s : ServerState) (lock_names : List String) :
    ServerState × List String :=
  let sorted_locks := sort_locks lock_names
  let r := sorted_locks.foldl acquire_step (s, [])
  ({ r.1 with
      active_locks := r.2.foldl set_insert r.1.active_locks
      deadlock_preventions := r.1.deadlock_preventions + 1 },
   r.2)

/-- One iteration of the release loop in `TrafficServer.release_locks`:
release the real lock (saturating, because the `RuntimeError` raised on
over-release is swallowed) and discard the name from `active_locks`. -/
def release_step (st : ServerState) (lock_name : String) : ServerState :=
  let st' :=
    if lock_name = "clients_lock" then
      { st with clients_lock_count := st.clients_lock_count - 1 }
    else
      st
  { st' with active_locks := st'.active_locks.filter (· ≠ lock_name) }

/-- `TrafficServer.release_locks`: walk the acquired names in reverse
order, releasing each. -/
def release_locks (s : ServerState) (lock_names : List String) :
    ServerState :=
  lock_names.reverse.foldl release_step s

/-- The `try/except` wrapper of `acquire_locks_in_order`: if an exception
interrupts the acquisition loop after `k` successful iterations
(`fail_after = some k` with `k` inside the loop), the handler releases
exactly the locks acquired so far and re-raises; otherwise the call
completes normally. -/
def acquire_locks_in_order_exc (s : ServerState) (lock_names : List String)
    (fail_after : Option Nat) : Except ServerState (ServerState × List String) :=
  let sorted_locks := sort_locks lock_names
  match fail_after with
  | none => Except.ok (acquire_locks_in_order s lock_names)
  | some k =>
    if k < sorted_locks.length then
      let r := (sorted_locks.take k).foldl acquire_step (s, [])
      Except.error (release_locks r.1 r.2)
    else
      Except.ok (acquire_locks_in_order s lock_names)

/-- `TrafficServer.send_to_client`: returns `False` without sending when
the id has no stored socket, otherwise writes the message on the
client's socket. -/
def send_to_client (s : ServerState) (client_id : String)
    (message : OutMessage) : ServerState × Bool :=
  match s.client_sockets.lookup client_id with
  | none => (s, false)
  | some _ => ({ s with sent_log := s.sent_log ++ [(client_id, message)] }, true)

/-- `TrafficServer.broadcast_message`: send the message to every id in
`client_sockets`, in registry order. -/
def broadcast_message (s : ServerState) (message : OutMessage) :
    ServerState :=
  (s.client_sockets.map Prod.fst).foldl
    (fun st cid => (send_to_client st cid message).1) s

/-- `TrafficServer.register_client`: build the client record (missing
message fields default to `'Unknown'`, `(0, 0)` and `'RED'`), store it
with the socket and a per-client lock, re-derive `total_clients`, and
reply with a `registration_confirmed` message. -/
def register_client (s : ServerState) (client_id : String) (m : InMessage)
    (sock : Nat) (now : Nat) : ServerState :=
  let client_info : ClientInfo :=
    { intersection := m.intersection.getD "Unknown"
      position := m.position.getD (0, 0)
      state := m.state.getD "RED"
      last_heartbeat := now
      state_changes := 0 }
  let s1 := { s with
    clients := dict_set s.clients client_id client_info
    client_sockets := dict_set s.client_sockets client_id sock
    client_locks := set_insert s.client_locks client_id }
  let s2 := { s1 with total_clients := s1.clients.length }
  (send_to_client s2 client_id
    (OutMessage.registration_confirmed now client_id)).1

/-- `TrafficServer.should_sync_clients`: never while a sync is in
progress; otherwise when more than 30 seconds have passed since
`last_sync`. -/
def should_sync_clients (s : ServerState) (now : Nat) : Bool :=
  if s.sync_in_progress then false else decide (now - s.last_sync > 30)

/-- `TrafficServer.complete_synchronization`, the deferred action run by
the 5-second one-shot timer. -/
def complete_synchronization (s : ServerState) : ServerState :=
  { s with sync_in_progress := false }

/-- `TrafficServer.trigger_synchronization`: a no-op while a sync is in
progress; otherwise enter the sync window, stamp `last_sync`, count the
operation, broadcast one `sync_request` to every connected client, and
schedule `complete_synchronization` to run 5 seconds later. -/
def trigger_synchronization (s : ServerState) (now : Nat) : ServerState :=
  if s.sync_in_progress then s
  else
    let s1 := { s with
      sync_in_progress := true
      last_sync := now
      sync_operations := s.sync_operations + 1 }
    let s2 := broadcast_message s1 (OutMessage.sync_request now)
    { s2 with
      pending_timers := s2.pending_timers ++ [(5, "complete_synchronization")] }

/-- `TrafficServer.update_client_state`: a no-op when the id is unknown;
otherwise overwrite `state` (keeping the old value when the message has
none), stamp `last_heartbeat`, bump `state_changes`, and trigger a
synchronization when `should_sync_clients` says so. -/
def update_client_state (s : ServerState) (client_id : String)
    (m : InMessage) (now : Nat) : ServerState :=
  match s.clients.lookup client_id with
  | none => s
  | some client_info =>
    let info' := { client_info with
      state := m.state.getD client_info.state
      last_heartbeat := now
      state_changes := client_info.state_changes + 1 }
    let s1 := { s with clients := dict_set s.clients client_id info' }
    if should_sync_clients s1 now then trigger_synchronization s1 now else s1

/-- `TrafficServer.update_client_heartbeat`: stamp `last_heartbeat` when
the id is known, otherwise do nothing. -/
def update_client_heartbeat (s : ServerState) (client_id : String)
    (now : Nat) : ServerState :=
  match s.clients.lookup client_id with
  | none => s
  | some client_info =>
    { s with clients :=
        dict_set s.clients client_id { client_info with last_heartbeat := now } }

/-- `TrafficServer.remove_client`: when the id is registered, delete its
registry, socket-table and lock-table entries and re-derive
`total_clients`; otherwise do nothing.  The stored socket is not
touched. -/
def remove_client (s : ServerState) (client_id : String) : ServerState :=
  if (s.clients.lookup client_id).isSome then
    let s1 := { s with
      clients := dict_del s.clients client_id
      client_sockets :=
        if (s.client_sockets.lookup client_id).isSome then
          dict_del s.client_sockets client_id
        else s.client_sockets
      client_locks :=
        if client_id ∈ s.client_locks then
          s.client_locks.filter (· ≠ client_id)
        else s.client_locks }
    { s1 with total_clients := s1.clients.length }
  else s

/-- The `finally` block of `TrafficServer.handle_client`: remove the
client when an id was seen (Python truthiness: `None` and `""` are
skipped) and then close this connection's socket. -/
def handle_client_cleanup (s : ServerState) (client_id : Option String)
    (sock : Nat) : ServerState :=
  let s1 :=
    match client_id with
    | some cid => if cid ≠ "" then remove_client s cid else s
    | none => s
  { s1 with closed_sockets := s1.closed_sockets ++ [sock] }

/-- One sweep of `TrafficServer.system_monitor`: collect the ids whose
heartbeat is more than 60 seconds old, then remove each. -/
def system_monitor_sweep (s : ServerState) (now : Nat) : ServerState :=
  let inactive_clients :=
    (s.clients.filter (fun p => now - p.2.last_heartbeat > 60)).map Prod.fst
  inactive_clients.foldl remove_client s

/-- Python truthiness of the optional `target_intersection` argument:
`None` and the empty string are falsy. -/
def option_truthy : Option String → Bool
  | none => false
  | some t => t ≠ ""

/-- `TrafficServer.emergency_override`: raise `emergency_mode`, count
the override, and send the `emergency_override` message — to the clients
of the target intersection when a truthy target is given, to everyone
otherwise. -/
def emergency_override (s : ServerState) (target_intersection : Option String)
    (emergency_state : String) (now : Nat) : ServerState :=
  if option_truthy target_intersection then
    ({ s with
        emergency_mode := true
        emergency_overrides := s.emergency_overrides + 1 } : ServerState).clients.foldl
      (fun st p =>
        if p.2.intersection = target_intersection.getD "" then
          (send_to_client st p.1
            (OutMessage.emergency_override emergency_state now
              target_intersection)).1
        else st)
      { s with
        emergency_mode := true
        emergency_overrides := s.emergency_overrides + 1 }
  else
    broadcast_message
      { s with
        emergency_mode := true
        emergency_overrides := s.emergency_overrides + 1 }
      (OutMessage.emergency_override emergency_state now target_intersection)

/-- The dispatch body of `TrafficServer.process_client_message` (the
`if/elif` chain inside the `try`). -/
def classify_message (s : ServerState) (client_id : String) (m : InMessage)
    (sock : Nat) (now : Nat) : ServerState :=
  if m.type = "register" then register_client s client_id m sock now
  else if m.type = "state_update" then update_client_state s client_id m now
  else if m.type = "heartbeat" then update_client_heartbeat s client_id now
  else s

/-- `TrafficServer.process_client_message`: acquire the needed locks in
order, dispatch on the message type (unknown types only log a warning),
bump `messages_processed`, and release the locks in the `finally`
block. -/
def process_client_message (s : ServerState) (client_id : String)
    (m : InMessage) (sock : Nat) (now : Nat) : ServerState :=
  let locks_to_acquire :=
    if m.type = "state_update" then ["clients_lock", "system_lock"]
    else ["clients_lock"]
  let r := acquire_locks_in_order s locks_to_acquire
  let s2 := classify_message r.1 client_id m sock now
  let s3 := { s2 with messages_processed := s2.messages_processed + 1 }
  release_locks s3 r.2

/-- The `try/finally` of `process_client_message` under a handler that
raises: the counter line is skipped, but the `finally` still releases
every acquired lock before the exception propagates. -/
def process_client_message_exc (s : ServerState) (client_id : String)
    (m : InMessage) (sock : Nat) (now : Nat) (handler_fails : Bool) :
    Except ServerState ServerState :=
  let locks_to_acquire :=
    if m.type = "state_update" then ["clients_lock", "system_lock"]
    else ["clients_lock"]
  let r := acquire_locks_in_order s locks_to_acquire
  if handler_fails then
    Except.error (release_locks r.1 r.2)
  else
    Except.ok (process_client_message s client_id m sock now)

/-- A command received by a traffic light from the server: a `type` tag
plus the optional `state` field the handlers extract with `.get`. -/
structure LightCommand where
  type : String
  state : Option String
deriving DecidableEq, Repr

/-- The mutable state of a `TrafficLight` agent
(`src/traffic_light.py`): the state machine fields, the connection flag
and the log of `state_update` messages it sent to the server. -/
structure TrafficLight where
  current_state : TrafficLightState
  previous_state : TrafficLightState
  connected : Bool
  state_changes : Nat
  sent_states : List (TrafficLightState × Nat)
deriving DecidableEq, Repr

/-- A `TrafficLight` as built by `TrafficLight.__init__`: both state
fields start at `RED`, disconnected, no changes yet. -/
def initial_traffic_light : TrafficLight :=
  { current_state := TrafficLightState.RED
    previous_state := TrafficLightState.RED
    connected := false
    state_changes := 0
    sent_states := [] }

/-- `TrafficLight.send_state_to_server`: returns `False` without sending
when disconnected, otherwise sends a `state_update` carrying the state
and timestamp. -/
def send_state_to_server (l : TrafficLight) (state : TrafficLightState)
    (timestamp : Nat) : TrafficLight × Bool :=
  if l.connected then
    ({ l with sent_states := l.sent_states ++ [(state, timestamp)] }, true)
  else
    (l, false)

/-- `TrafficLight.change_state`: when the new state differs from the
current one, shift `current_state` into `previous_state`, install the
new state, bump `state_changes`, report the change to the server and
return `True`; otherwise do nothing and return `False`. -/
def change_state (l : TrafficLight) (new_state : TrafficLightState)
    (now : Nat) : TrafficLight × Bool :=
  if l.current_state ≠ new_state then
    let l1 := { l with
      previous_state := l.current_state
      current_state := new_state
      state_changes := l.state_changes + 1 }
    ((send_state_to_server l1 new_state now).1, true)
  else
    (l, false)

/-- Python `str.upper` on the ASCII state names (character-wise
uppercasing, written over the character list so that it computes by
reduction). -/
def str_upper (s : String) : String :=
  String.mk (s.data.map Char.toUpper)

/-- Name lookup `TrafficLightState[s.upper()]` used by the emergency
handler; `none` models the `KeyError`. -/
def parse_light_state (s : String) : Option TrafficLightState :=
  if str_upper s = "RED" then some TrafficLightState.RED
  else if str_upper s = "YELLOW" then some TrafficLightState.YELLOW
  else if str_upper s = "GREEN" then some TrafficLightState.GREEN
  else none

/-- `TrafficLight.handle_emergency_override`: parse the commanded state
(defaulting to `'RED'` when the field is absent) and apply it through
`change_state`; an unparsable state only logs an error. -/
def handle_emergency_override (l : TrafficLight) (command : LightCommand)
    (now : Nat) : TrafficLight :=
  match parse_light_state (command.state.getD "RED") with
  | some st => (change_state l st now).1
  | none => l

/-- The state list iterated by the `for` loop of
`TrafficLight.traffic_light_cycle`. -/
def cycle_order : List TrafficLightState :=
  [TrafficLightState.RED, TrafficLightState.GREEN, TrafficLightState.YELLOW]

/-- One full pass of the normal-cycle `for` loop: apply `RED`, `GREEN`,
`YELLOW` in order through `change_state` (the dwell sleeps between them
do not change the state). -/
def normal_cycle_pass (l : TrafficLight) (now : Nat) : TrafficLight :=
  cycle_order.foldl (fun st s => (change_state st s now).1) l

/-- One iteration of the outer `while` loop of
`TrafficLight.traffic_light_cycle`: an `emergency_override` command is
handled and the iteration `continue`s (skipping the cycle pass); any
other situation runs a full normal-cycle pass. -/
def traffic_light_cycle_iteration (l : TrafficLight)
    (command : Option LightCommand) (now : Nat) : TrafficLight :=
  match command with
  | some c =>
    if c.type = "emergency_override" then handle_emergency_override l c now
    else normal_cycle_pass l now
  | none => normal_cycle_pass l now

/-- `TrafficLight.get_state_duration`: the configured dwell of each
state (`STATE_DURATIONS` in `src/config.py`, default 5). -/
def get_state_duration (state : TrafficLightState) : Nat :=
  match state with
  | TrafficLightState.RED => 8
  | TrafficLightState.YELLOW => 3
  | TrafficLightState.GREEN => 10

/-! ### Dictionary lemmas -/

theorem lookup_pair_cons_eq {α : Type} (k x : String) (y : α)
    (t : List (String × α)) (h : k = x) :
    List.lookup k ((x, y) :: t) = some y := by
  simp [List.lookup, h]

theorem lookup_pair_cons_ne {α : Type} (k x : String) (y : α)
    (t : List (String × α)) (h : ¬ k = x) :
    List.lookup k ((x, y) :: t) = List.lookup k t := by
  have hb : (k == x) = false := beq_eq_false_iff_ne.mpr h
  simp [List.lookup, hb]

theorem lookup_map_overwrite {α : Type} (l : List (String × α)) (k : String)
    (v : α) (h : (l.lookup k).isSome = true) :
    (l.map (fun p => if p.1 = k then (k, v) else p)).lookup k = some v := by
  induction l with
  | nil => simp [List.lookup] at h
  | cons a t ih =>
    obtain ⟨a1, a2⟩ := a
    by_cases hk : a1 = k
    · rw [List.map_cons, if_pos hk]
      exact lookup_pair_cons_eq k k v _ rfl
    · rw [List.map_cons, if_neg hk]
      rw [lookup_pair_cons_ne k a1 a2 t (fun e => hk e.symm)] at h
      rw [lookup_pair_cons_ne k a1 a2 _ (fun e => hk e.symm)]
      exact ih h

theorem lookup_append_of_none {α : Type} (l : List (String × α)) (k : String)
    (v : α) (h : l.lookup k = none) :
    (l ++ [(k, v)]).lookup k = some v := by
  induction l with
  | nil => simp [List.lookup]
  | cons a t ih =>
    obtain ⟨a1, a2⟩ := a
    by_cases hk : k = a1
    · rw [lookup_pair_cons_eq k a1 a2 t hk] at h
      exact absurd h (by simp)
    · rw [lookup_pair_cons_ne k a1 a2 t hk] at h
      rw [List.cons_append, lookup_pair_cons_ne k a1 a2 _ hk]
      exact ih h

theorem lookup_dict_set_self {α : Type} (l : List (String × α)) (k : String)
    (v : α) : (dict_set l k v).lookup k = some v := by
  unfold dict_set
  cases h : (l.lookup k) with
  | some w =>
    have h' : (l.lookup k).isSome = true := by simp [h]
    rw [if_pos (show (some w).isSome = true from rfl)]
    exact lookup_map_overwrite l k v h'
  | none =>
    rw [if_neg (show ¬ (none : Option α).isSome = true by simp)]
    exact lookup_append_of_none l k v h

theorem lookup_dict_del_self {α : Type} (l : List (String × α)) (k : String) :
    (dict_del l k).lookup k = none := by
  induction l with
  | nil => simp [dict_del, List.lookup]
  | cons a t ih =>
    obtain ⟨a1, a2⟩ := a
    by_cases hk : a1 = k
    · simpa [dict_del, hk] using ih
    · have : dict_del ((a1, a2) :: t) k = (a1, a2) :: dict_del t k := by
        simp [dict_del, hk]
      rw [this, lookup_pair_cons_ne k a1 a2 _ (fun e => hk e.symm)]
      exact ih

theorem dict_set_length_of_mem {α : Type} (l : List (String × α)) (k : String)
    (v : α) (h : (l.lookup k).isSome = true) :
    (dict_set l k v).length = l.length := by
  simp [dict_set, h]

/-! ### Claim C9: change_state is a no-op on the current state -/

/-- C9: calling `change_state` with the current state is a no-op that
returns `False` (state, previous state, counter and send log all
unchanged); applying `change_state` twice with the same state equals
applying it once; and `state_changes` counts exactly the actual
transitions (it grows only when the state really changes). -/
theorem change_state_same_state_noop (l : TrafficLight)
    (st : TrafficLightState) (now now' : Nat) :
    (l.current_state = st → change_state l st now = (l, false)) ∧
    change_state (change_state l st now).1 st now'
      = ((change_state l st now).1, false) ∧
    (change_state l st now).1.state_changes
      = l.state_changes + (if l.current_state = st then 0 else 1) := by
  by_cases h : l.current_state = st
  · refine ⟨fun _ => ?_, ?_, ?_⟩ <;>
      simp [change_state, h]
  · refine ⟨fun hc => absurd hc h, ?_, ?_⟩ <;>
      simp [change_state, send_state_to_server, h] <;>
      split <;> simp

/-- Witness for `change_state_same_state_noop` at a concrete light whose
current state equals the commanded one. -/
theorem change_state_same_state_noop_witness :
    change_state { initial_traffic_light with connected := true }
        TrafficLightState.RED 7 = ({ initial_traffic_light with connected := true }, false) :=
  (change_state_same_state_noop
    { initial_traffic_light with connected := true }
    TrafficLightState.RED 7 8).1 rfl

/-! ### Claim C7: the cycle order and the reported sequence -/

/-- A connected light sitting at `RED`, as at the start of the cycle
thread. -/
def cycle_light0 : TrafficLight :=
  { current_state := TrafficLightState.RED
    previous_state := TrafficLightState.RED
    connected := true
    state_changes := 0
    sent_states := [] }

/-- C7 counterexample: starting at `RED`, one full pass of the normal
cycle reports only `GREEN, YELLOW` — the leading `RED` of the claimed
reported sequence `RED, GREEN, YELLOW` is never sent, because
`change_state` to the already-current state is a no-op. -/
theorem cycle_reported_sequence_cex :
    cycle_light0.current_state = TrafficLightState.RED ∧
    (normal_cycle_pass cycle_light0 10).sent_states.map Prod.fst
      = [TrafficLightState.GREEN, TrafficLightState.YELLOW] ∧
    ¬ (normal_cycle_pass cycle_light0 10).sent_states.map Prod.fst
      = [TrafficLightState.RED, TrafficLightState.GREEN,
         TrafficLightState.YELLOW] := by
  refine ⟨rfl, rfl, ?_⟩
  decide

/-- C7 amended: the cycle applies states in the repeating order
`RED, GREEN, YELLOW`; a pass entered at `YELLOW` (the steady-state loop
point) reports `RED, GREEN, YELLOW`, while the first pass from the
initial `RED` reports only `GREEN, YELLOW`; and after an
`emergency_override` iteration forces a commanded state, the next
normal pass starts again from `RED` (reporting `RED` first). -/
theorem cycle_order_and_emergency_resume (l : TrafficLight) (now now' : Nat)
    (hc : l.connected = true) :
    (l.current_state = TrafficLightState.YELLOW →
      (normal_cycle_pass l now).sent_states
        = l.sent_states ++ [(TrafficLightState.RED, now),
            (TrafficLightState.GREEN, now), (TrafficLightState.YELLOW, now)]) ∧
    (l.current_state = TrafficLightState.RED →
      (normal_cycle_pass l now).sent_states
        = l.sent_states ++ [(TrafficLightState.GREEN, now),
            (TrafficLightState.YELLOW, now)]) ∧
    (∀ c : LightCommand, c.type = "emergency_override" →
      ∀ st, parse_light_state (c.state.getD "RED") = some st →
      st ≠ TrafficLightState.RED →
      (traffic_light_cycle_iteration l (some c) now).current_state = st ∧
      (normal_cycle_pass (traffic_light_cycle_iteration l (some c) now) now').sent_states
        = (traffic_light_cycle_iteration l (some c) now).sent_states
            ++ [(TrafficLightState.RED, now'),
                (TrafficLightState.GREEN, now'), (TrafficLightState.YELLOW, now')]) := by
  obtain ⟨cs, ps, conn, n, log⟩ := l
  simp only at hc
  subst hc
  refine ⟨?_, ?_, ?_⟩
  · intro hcs
    simp only at hcs
    subst hcs
    simp [normal_cycle_pass, cycle_order, change_state, send_state_to_server]
  · intro hcs
    simp only at hcs
    subst hcs
    simp [normal_cycle_pass, cycle_order, change_state, send_state_to_server]
  · intro c hct st hst hne
    simp only [traffic_light_cycle_iteration, hct, if_pos,
      handle_emergency_override, hst]
    cases st with
    | RED => exact absurd rfl hne
    | YELLOW =>
      by_cases h : cs = TrafficLightState.YELLOW <;>
        simp [change_state, send_state_to_server, normal_cycle_pass,
          cycle_order, h]
    | GREEN =>
      by_cases h : cs = TrafficLightState.GREEN <;>
        simp [change_state, send_state_to_server, normal_cycle_pass,
          cycle_order, h]

/-- Witness for `cycle_order_and_emergency_resume`: a concrete connected
light at `YELLOW`, and a concrete emergency command forcing `GREEN`. -/
theorem cycle_order_and_emergency_resume_witness :
    (normal_cycle_pass { cycle_light0 with
        current_state := TrafficLightState.YELLOW } 3).sent_states
      = [(TrafficLightState.RED, 3), (TrafficLightState.GREEN, 3),
         (TrafficLightState.YELLOW, 3)] ∧
    (normal_cycle_pass cycle_light0 3).sent_states
      = [(TrafficLightState.GREEN, 3), (TrafficLightState.YELLOW, 3)] ∧
    (traffic_light_cycle_iteration cycle_light0
        (some { type := "emergency_override", state := some "GREEN" }) 3).current_state
      = TrafficLightState.GREEN := by
  refine ⟨?_, ?_, ?_⟩
  · exact (cycle_order_and_emergency_resume
      { cycle_light0 with current_state := TrafficLightState.YELLOW } 3 4 rfl).1 rfl
  · exact (cycle_order_and_emergency_resume cycle_light0 3 4 rfl).2.1 rfl
  · exact (((cycle_order_and_emergency_resume cycle_light0 3 4 rfl).2.2
      { type := "emergency_override", state := some "GREEN" } rfl
      TrafficLightState.GREEN (by decide) (by decide)).1)

/-! ### Counter lemmas for the dispatcher -/

theorem send_to_client_fields (s : ServerState) (cid : String)
    (msg : OutMessage) :
    (send_to_client s cid msg).1.messages_processed = s.messages_processed ∧
    (send_to_client s cid msg).1.clients_lock_count = s.clients_lock_count ∧
    (send_to_client s cid msg).1.clients = s.clients ∧
    (send_to_client s cid msg).1.total_clients = s.total_clients ∧
    (send_to_client s cid msg).1.client_sockets = s.client_sockets := by
  cases h : s.client_sockets.lookup cid <;> simp [send_to_client, h]

theorem foldl_send_fields (keys : List String) (s : ServerState)
    (msg : OutMessage) :
    let r := keys.foldl (fun st cid => (send_to_client st cid msg).1) s
    r.messages_processed = s.messages_processed ∧
    r.clients_lock_count = s.clients_lock_count ∧
    r.clients = s.clients ∧
    r.total_clients = s.total_clients ∧
    r.client_sockets = s.client_sockets := by
  induction keys generalizing s with
  | nil => exact ⟨rfl, rfl, rfl, rfl, rfl⟩
  | cons k t ih =>
    have hs := send_to_client_fields s k msg
    have ht := ih (send_to_client s k msg).1
    simp only [List.foldl_cons]
    exact ⟨ht.1.trans hs.1, ht.2.1.trans hs.2.1, ht.2.2.1.trans hs.2.2.1,
      ht.2.2.2.1.trans hs.2.2.2.1, ht.2.2.2.2.trans hs.2.2.2.2⟩

theorem broadcast_message_fields (s : ServerState) (msg : OutMessage) :
    (broadcast_message s msg).messages_processed = s.messages_processed ∧
    (broadcast_message s msg).clients_lock_count = s.clients_lock_count ∧
    (broadcast_message s msg).clients = s.clients ∧
    (broadcast_message s msg).total_clients = s.total_clients := by
  have h := foldl_send_fields (s.client_sockets.map Prod.fst) s msg
  exact ⟨h.1, h.2.1, h.2.2.1, h.2.2.2.1⟩

theorem trigger_synchronization_fields (s : ServerState) (now : Nat) :
    (trigger_synchronization s now).messages_processed = s.messages_processed ∧
    (trigger_synchronization s now).clients_lock_count = s.clients_lock_count ∧
    (trigger_synchronization s now).clients = s.clients ∧
    (trigger_synchronization s now).total_clients = s.total_clients := by
  unfold trigger_synchronization
  by_cases h : s.sync_in_progress = true
  · rw [if_pos h]
    exact ⟨rfl, rfl, rfl, rfl⟩
  · rw [if_neg h]
    have hb := broadcast_message_fields
      { s with
        sync_in_progress := true
        last_sync := now
        sync_operations := s.sync_operations + 1 }
      (OutMessage.sync_request now)
    exact ⟨hb.1, hb.2.1, hb.2.2.1, hb.2.2.2⟩

theorem register_client_messages_processed (s : ServerState) (cid : String)
    (m : InMessage) (sock : Nat) (now : Nat) :
    (register_client s cid m sock now).messages_processed
      = s.messages_processed ∧
    (register_client s cid m sock now).clients_lock_count
      = s.clients_lock_count := by
  unfold register_client
  refine ⟨(send_to_client_fields _ _ _).1, (send_to_client_fields _ _ _).2.1⟩

theorem update_client_state_messages_processed (s : ServerState)
    (cid : String) (m : InMessage) (now : Nat) :
    (update_client_state s cid m now).messages_processed
      = s.messages_processed ∧
    (update_client_state s cid m now).clients_lock_count
      = s.clients_lock_count := by
  unfold update_client_state
  cases h : s.clients.lookup cid with
  | none => exact ⟨rfl, rfl⟩
  | some info =>
    simp only
    split
    · exact ⟨(trigger_synchronization_fields _ _).1,
        (trigger_synchronization_fields _ _).2.1⟩
    · exact ⟨rfl, rfl⟩

theorem update_client_heartbeat_messages_processed (s : ServerState)
    (cid : String) (now : Nat) :
    (update_client_heartbeat s cid now).messages_processed
      = s.messages_processed ∧
    (update_client_heartbeat s cid now).clients_lock_count
      = s.clients_lock_count := by
  unfold update_client_heartbeat
  cases h : s.clients.lookup cid <;> exact ⟨rfl, rfl⟩

theorem classify_message_messages_processed (s : ServerState) (cid : String)
    (m : InMessage) (sock : Nat) (now : Nat) :
    (classify_message s cid m sock now).messages_processed
      = s.messages_processed ∧
    (classify_message s cid m sock now).clients_lock_count
      = s.clients_lock_count := by
  unfold classify_message
  split
  · exact register_client_messages_processed s cid m sock now
  · split
    · exact update_client_state_messages_processed s cid m now
    · split
      · exact update_client_heartbeat_messages_processed s cid now
      · exact ⟨rfl, rfl⟩

theorem acquire_step_eq_pos (acc : ServerState × List String) :
    acquire_step acc "clients_lock"
      = ({ acc.1 with clients_lock_count := acc.1.clients_lock_count + 1 },
         acc.2 ++ ["clients_lock"]) := by
  simp [acquire_step]

theorem acquire_step_eq_neg (acc : ServerState × List String) (n : String)
    (h : ¬ n = "clients_lock") : acquire_step acc n = acc := by
  simp [acquire_step, h]

theorem foldl_acquire_step_fields (names : List String)
    (acc : ServerState × List String) :
    (names.foldl acquire_step acc).1.messages_processed
      = acc.1.messages_processed ∧
    (names.foldl acquire_step acc).1.clients_lock_count
      = acc.1.clients_lock_count + (names.filter (· = "clients_lock")).length ∧
    (names.foldl acquire_step acc).2
      = acc.2 ++ (names.filter (· = "clients_lock")).map
          (fun _ => "clients_lock") := by
  induction names generalizing acc with
  | nil => simp
  | cons n t ih =>
    rw [List.foldl_cons]
    by_cases h : n = "clients_lock"
    · subst h
      rw [acquire_step_eq_pos]
      have ht := ih ({ acc.1 with
        clients_lock_count := acc.1.clients_lock_count + 1 },
        acc.2 ++ ["clients_lock"])
      refine ⟨ht.1, ?_, ?_⟩
      · rw [ht.2.1]
        simp [List.filter_cons]
        omega
      · rw [ht.2.2]
        simp [List.filter_cons]
    · rw [acquire_step_eq_neg acc n h]
      have ht := ih acc
      refine ⟨ht.1, ?_, ?_⟩
      · rw [ht.2.1]
        simp [List.filter_cons, h]
      · rw [ht.2.2]
        simp [List.filter_cons, h]

theorem acquire_locks_in_order_fields (s : ServerState)
    (names : List String) :
    (acquire_locks_in_order s names).1.messages_processed
      = s.messages_processed ∧
    (acquire_locks_in_order s names).1.clients_lock_count
      = s.clients_lock_count
        + ((sort_locks names).filter (· = "clients_lock")).length ∧
    (acquire_locks_in_order s names).2
      = ((sort_locks names).filter (· = "clients_lock")).map
          (fun _ => "clients_lock") := by
  unfold acquire_locks_in_order
  have h := foldl_acquire_step_fields (sort_locks names) (s, [])
  exact ⟨h.1, h.2.1, by simpa using h.2.2⟩

theorem release_step_fields (s : ServerState) (n : String) :
    (release_step s n).messages_processed = s.messages_processed ∧
    (release_step s n).clients_lock_count
      = s.clients_lock_count - (if n = "clients_lock" then 1 else 0) := by
  unfold release_step
  by_cases h : n = "clients_lock" <;> simp [h]

theorem foldl_release_step_fields (names : List String) (s : ServerState) :
    (names.foldl release_step s).messages_processed = s.messages_processed ∧
    (names.foldl release_step s).clients_lock_count
      = s.clients_lock_count - (names.filter (· = "clients_lock")).length := by
  induction names generalizing s with
  | nil => simp
  | cons n t ih =>
    rw [List.foldl_cons]
    have hs := release_step_fields s n
    have ht := ih (release_step s n)
    refine ⟨ht.1.trans hs.1, ?_⟩
    rw [ht.2, hs.2]
    by_cases h : n = "clients_lock" <;> simp [List.filter_cons, h] <;> omega

theorem release_locks_fields (s : ServerState) (names : List String) :
    (release_locks s names).messages_processed = s.messages_processed ∧
    (release_locks s names).clients_lock_count
      = s.clients_lock_count - (names.filter (· = "clients_lock")).length := by
  have h := foldl_release_step_fields names.reverse s
  unfold release_locks
  refine ⟨h.1, ?_⟩
  rw [h.2]
  simp [List.filter_reverse]

theorem process_client_message_messages_processed (s : ServerState)
    (cid : String) (m : InMessage) (sock : Nat) (now : Nat) :
    (process_client_message s cid m sock now).messages_processed
      = s.messages_processed + 1 := by
  unfold process_client_message
  simp only
  rw [(release_locks_fields _ _).1]
  simp only
  rw [(classify_message_messages_processed _ _ _ _ _).1,
    (acquire_locks_in_order_fields _ _).1]

/-! ### Claim C2: what messagesProcessed counts -/

/-- An inbound message whose type is none of the three classified
ones. -/
def unknown_message : InMessage :=
  { type := "unknownType", intersection := none, position := none,
    state := none }

/-- C2 counterexample: a message of unknown type also increments
`messages_processed` — the `+= 1` sits after the `if/elif/else` chain and
runs for the `else` (warning) branch too, so the counter does not count
only the successfully classified messages. -/
theorem messages_processed_unknown_type_cex :
    unknown_message.type ≠ "register" ∧
    unknown_message.type ≠ "state_update" ∧
    unknown_message.type ≠ "heartbeat" ∧
    (process_client_message (initial_server_state 0) "A1" unknown_message
        7 5).messages_processed
      = (initial_server_state 0).messages_processed + 1 := by
  refine ⟨by decide, by decide, by decide, ?_⟩
  rfl

/-- C2 amended: `messages_processed` grows by exactly one for every
inbound message the dispatcher processes, regardless of its type —
unknown-type messages are logged and leave the registry untouched but
still increment the counter. -/
theorem messages_processed_counts_all_dispatches (s : ServerState)
    (msgs : List (String × InMessage × Nat × Nat)) :
    (msgs.foldl
        (fun st x => process_client_message st x.1 x.2.1 x.2.2.1 x.2.2.2)
        s).messages_processed
      = s.messages_processed + msgs.length := by
  induction msgs generalizing s with
  | nil => simp
  | cons x t ih =>
    rw [List.foldl_cons, ih, process_client_message_messages_processed]
    simp only [List.length_cons]
    omega

/-! ### Claim C1: does removal close the connection handle? -/

/-- The register message a fresh agent at intersection Centro sends. -/
def register_message_centro : InMessage :=
  { type := "register", intersection := some "Centro",
    position := some (1, 2), state := some "RED" }

/-- A server that has registered client A1 (socket handle 7) and
nothing else. -/
def server_with_A1 : ServerState :=
  register_client (initial_server_state 0) "A1" register_message_centro 7 0

/-- C1 counterexample: removing A1 — directly or through the liveness
sweep (heartbeat 100s old at time 100) — deletes its registry entries
but leaves `closed_sockets` empty: the stored connection handle 7 is
never closed by removal. -/
theorem remove_client_socket_not_closed_cex :
    server_with_A1.client_sockets.lookup "A1" = some 7 ∧
    (remove_client server_with_A1 "A1").clients.lookup "A1" = none ∧
    (remove_client server_with_A1 "A1").closed_sockets = [] ∧
    (system_monitor_sweep server_with_A1 100).clients.lookup "A1" = none ∧
    (system_monitor_sweep server_with_A1 100).closed_sockets = [] := by
  exact ⟨rfl, rfl, rfl, rfl, rfl⟩

theorem remove_client_closed_sockets (s : ServerState) (cid : String) :
    (remove_client s cid).closed_sockets = s.closed_sockets := by
  unfold remove_client
  by_cases h : (s.clients.lookup cid).isSome = true
  · rw [if_pos h]
  · rw [if_neg h]

theorem handle_client_cleanup_closed (s : ServerState) (cid : String)
    (sock : Nat) :
    (handle_client_cleanup s (some cid) sock).closed_sockets
      = s.closed_sockets ++ [sock] := by
  by_cases he : cid = ""
  · simp [handle_client_cleanup, he]
  · simp [handle_client_cleanup, he, remove_client_closed_sockets]

/-- C1 amended: `remove_client` deletes the session's registry, socket
and lock entries and re-derives `total_clients`, but never touches the
connection handle; the handle is closed by the per-connection handler's
cleanup path (the `finally` of `handle_client`), not by removal. -/
theorem remove_client_amended (s : ServerState) (cid : String) (sock : Nat) :
    (remove_client s cid).closed_sockets = s.closed_sockets ∧
    (remove_client s cid).clients.lookup cid = none ∧
    ((s.clients.lookup cid).isSome = true →
      (remove_client s cid).total_clients
        = (remove_client s cid).clients.length) ∧
    (handle_client_cleanup s (some cid) sock).closed_sockets
      = s.closed_sockets ++ [sock] := by
  refine ⟨remove_client_closed_sockets s cid, ?_, ?_, 
    handle_client_cleanup_closed s cid sock⟩
  · unfold remove_client
    by_cases h : (s.clients.lookup cid).isSome = true
    · rw [if_pos h]
      exact lookup_dict_del_self s.clients cid
    · rw [if_neg h]
      cases hl : s.clients.lookup cid
      · rfl
      · exact absurd (by simp [hl]) h
  · intro h
    unfold remove_client
    rw [if_pos h]

/-- Witness for `remove_client_amended` at the concrete registered
server, discharging the registered-client hypothesis. -/
theorem remove_client_amended_witness :
    (server_with_A1.clients.lookup "A1").isSome = true ∧
    (remove_client server_with_A1 "A1").total_clients
      = (remove_client server_with_A1 "A1").clients.length :=
  ⟨rfl, (remove_client_amended server_with_A1 "A1" 7).2.2.1 rfl⟩

/-! ### Send and broadcast characterizations -/

theorem lookup_isSome_of_mem {α : Type} (l : List (String × α))
    (p : String × α) (h : p ∈ l) : (l.lookup p.1).isSome = true := by
  induction l with
  | nil => simp at h
  | cons a t ih =>
    rw [show a :: t = (a.1, a.2) :: t from rfl]
    rcases List.mem_cons.mp h with h1 | h2
    · subst h1
      rw [lookup_pair_cons_eq p.1 p.1 p.2 t rfl]
      rfl
    · by_cases hk : p.1 = a.1
      · rw [lookup_pair_cons_eq p.1 a.1 a.2 t hk]
        rfl
      · rw [lookup_pair_cons_ne p.1 a.1 a.2 t hk]
        exact ih h2

theorem send_to_client_eq_some (s : ServerState) (cid : String) (sock : Nat)
    (msg : OutMessage) (h : s.client_sockets.lookup cid = some sock) :
    (send_to_client s cid msg).1
      = { s with sent_log := s.sent_log ++ [(cid, msg)] } := by
  simp [send_to_client, h]

theorem send_to_client_only_sent_log (s : ServerState) (cid : String)
    (msg : OutMessage) :
    ∃ t, (send_to_client s cid msg).1 = { s with sent_log := t } := by
  cases h : s.client_sockets.lookup cid with
  | none => exact ⟨s.sent_log, by simp [send_to_client, h]⟩
  | some sock => exact ⟨s.sent_log ++ [(cid, msg)], by simp [send_to_client, h]⟩

theorem foldl_send_only_sent_log (keys : List String) (s : ServerState)
    (msg : OutMessage) :
    ∃ t, keys.foldl (fun st cid => (send_to_client st cid msg).1) s
      = { s with sent_log := t } := by
  induction keys generalizing s with
  | nil => exact ⟨s.sent_log, rfl⟩
  | cons k tl ih =>
    rw [List.foldl_cons]
    obtain ⟨t1, h1⟩ := send_to_client_only_sent_log s k msg
    obtain ⟨t2, h2⟩ := ih (send_to_client s k msg).1
    rw [h2, h1]
    exact ⟨t2, rfl⟩

theorem foldl_send_sent_log (keys : List String) (s : ServerState)
    (msg : OutMessage)
    (h : ∀ k ∈ keys, (s.client_sockets.lookup k).isSome = true) :
    (keys.foldl (fun st cid => (send_to_client st cid msg).1) s).sent_log
      = s.sent_log ++ keys.map (fun k => (k, msg)) := by
  induction keys generalizing s with
  | nil => simp
  | cons k tl ih =>
    rw [List.foldl_cons]
    obtain ⟨sock, hk⟩ := Option.isSome_iff_exists.mp (h k (by simp))
    have h1 := send_to_client_eq_some s k sock msg hk
    have hcs : (send_to_client s k msg).1.client_sockets = s.client_sockets :=
      (send_to_client_fields s k msg).2.2.2.2
    have ht := ih (send_to_client s k msg).1
      (fun k' hk' => by rw [hcs]; exact h k' (List.mem_cons_of_mem _ hk'))
    rw [ht, h1]
    simp

theorem broadcast_message_eq (s : ServerState) (msg : OutMessage) :
    broadcast_message s msg
      = { s with sent_log :=
          s.sent_log ++ s.client_sockets.map (fun p => (p.1, msg)) } := by
  obtain ⟨t, ht⟩ := foldl_send_only_sent_log (s.client_sockets.map Prod.fst) s msg
  have hs := foldl_send_sent_log (s.client_sockets.map Prod.fst) s msg
    (by
      intro k hk
      obtain ⟨p, hp, rfl⟩ := List.mem_map.mp hk
      exact lookup_isSome_of_mem s.client_sockets p hp)
  rw [ht] at hs
  have hs' : t = s.sent_log ++ (s.client_sockets.map Prod.fst).map
      (fun k => (k, msg)) := hs
  unfold broadcast_message
  rw [ht, hs']
  simp [List.map_map, Function.comp]

/-! ### Claim C4: the synchronization window -/

theorem trigger_synchronization_eq (s : ServerState) (now : Nat)
    (h : s.sync_in_progress = false) :
    trigger_synchronization s now
      = { s with
          sync_in_progress := true
          last_sync := now
          sync_operations := s.sync_operations + 1
          sent_log := s.sent_log ++ s.client_sockets.map
            (fun p => (p.1, OutMessage.sync_request now))
          pending_timers :=
            s.pending_timers ++ [(5, "complete_synchronization")] } := by
  unfold trigger_synchronization
  rw [if_neg (by simp [h])]
  simp only [broadcast_message_eq]

/-- C4: triggering synchronization while a sync is in flight is a
complete no-op (the state, including `last_sync`, the `sync_operations`
counter and the send log, is unchanged); from the idle state it stamps
`last_sync` to now, raises `sync_in_progress`, counts the operation,
broadcasts exactly one `sync_request` to every connected session, and
schedules the 5-second one-shot `complete_synchronization`, which resets
`sync_in_progress` to `false`. -/
theorem trigger_synchronization_window (s : ServerState) (now : Nat) :
    (s.sync_in_progress = true → trigger_synchronization s now = s) ∧
    (s.sync_in_progress = false →
      (trigger_synchronization s now).sync_in_progress = true ∧
      (trigger_synchronization s now).last_sync = now ∧
      (trigger_synchronization s now).sync_operations
        = s.sync_operations + 1 ∧
      (trigger_synchronization s now).sent_log
        = s.sent_log ++ s.client_sockets.map
            (fun p => (p.1, OutMessage.sync_request now)) ∧
      (trigger_synchronization s now).pending_timers
        = s.pending_timers ++ [(5, "complete_synchronization")]) ∧
    (complete_synchronization (trigger_synchronization s now)).sync_in_progress
      = false := by
  refine ⟨?_, ?_, rfl⟩
  · intro h
    unfold trigger_synchronization
    rw [if_pos h]
  · intro h
    rw [trigger_synchronization_eq s now h]
    exact ⟨rfl, rfl, rfl, rfl, rfl⟩

/-- Witness for `trigger_synchronization_window`: the concrete idle
server with registered client A1 broadcasts one `sync_request` to it. -/
theorem trigger_synchronization_window_witness :
    server_with_A1.sync_in_progress = false ∧
    (trigger_synchronization server_with_A1 40).sent_log
      = server_with_A1.sent_log ++ [("A1", OutMessage.sync_request 40)] ∧
    (trigger_synchronization server_with_A1 40).last_sync = 40 := by
  have h := (trigger_synchronization_window server_with_A1 40).2.1 rfl
  exact ⟨rfl, h.2.2.2.1.trans (by rfl), h.2.1⟩

/-! ### Claim C6: stateUpdate semantics -/

/-- The updated per-client record built by `update_client_state` for an
existing session. -/
def updated_info (info : ClientInfo) (m : InMessage) (now : Nat) :
    ClientInfo :=
  { info with
    state := m.state.getD info.state
    last_heartbeat := now
    state_changes := info.state_changes + 1 }

theorem update_client_state_eq_some (s : ServerState) (cid : String)
    (m : InMessage) (now : Nat) (info : ClientInfo)
    (h : s.clients.lookup cid = some info) :
    update_client_state s cid m now =
      if should_sync_clients s now then
        trigger_synchronization
          { s with clients := dict_set s.clients cid (updated_info info m now) }
          now
      else
        { s with clients := dict_set s.clients cid (updated_info info m now) } := by
  unfold update_client_state
  rw [h]
  rfl

theorem update_client_state_lookup (s : ServerState) (cid : String)
    (m : InMessage) (now : Nat) (info : ClientInfo)
    (h : s.clients.lookup cid = some info) :
    (update_client_state s cid m now).clients.lookup cid
      = some (updated_info info m now) := by
  rw [update_client_state_eq_some s cid m now info h]
  split
  · rw [(trigger_synchronization_fields _ _).2.2.1]
    exact lookup_dict_set_self _ _ _
  · exact lookup_dict_set_self _ _ _

theorem update_client_state_sync_fields (s : ServerState) (cid : String)
    (m : InMessage) (now : Nat) (info : ClientInfo)
    (h : s.clients.lookup cid = some info) :
    (update_client_state s cid m now).sync_operations
      = s.sync_operations
        + (if s.sync_in_progress = false ∧ now - s.last_sync > 30
           then 1 else 0) ∧
    (update_client_state s cid m now).sync_in_progress
      = (s.sync_in_progress || decide (now - s.last_sync > 30)) := by
  rw [update_client_state_eq_some s cid m now info h]
  by_cases hsip : s.sync_in_progress = true
  · have hss : should_sync_clients s now = false := by
      simp [should_sync_clients, hsip]
    rw [if_neg (by simp [hss])]
    constructor <;> simp [hsip]
  · have hsip' : s.sync_in_progress = false := by
      cases hb : s.sync_in_progress
      · rfl
      · exact absurd hb hsip
    by_cases hd : now - s.last_sync > 30
    · have hss : should_sync_clients s now = true := by
        simp [should_sync_clients, hsip', hd]
      rw [if_pos hss, trigger_synchronization_eq
        { s with clients := dict_set s.clients cid (updated_info info m now) }
        now hsip']
      constructor <;> simp [hsip', hd]
    · have hss : should_sync_clients s now = false := by
        simp [should_sync_clients, hsip', hd]
      rw [if_neg (by simp [hss])]
      constructor <;> simp [hsip', hd]

theorem register_client_clients (s : ServerState) (cid : String)
    (m : InMessage) (sock : Nat) (now : Nat) :
    (register_client s cid m sock now).clients
      = dict_set s.clients cid
          { intersection := m.intersection.getD "Unknown"
            position := m.position.getD (0, 0)
            state := m.state.getD "RED"
            last_heartbeat := now
            state_changes := 0 } := by
  unfold register_client
  exact (send_to_client_fields _ _ _).2.2.1

/-- C6: a `state_update` for an unknown session id leaves the whole
server state unchanged; for a registered session it overwrites the
stored record with the message state (the old state when the message
carries none), stamps `last_heartbeat` to now and increments
`state_changes` by one, and it triggers a synchronization exactly when
no sync is in progress and more than 30 seconds have passed since
`last_sync` (the `sync_operations` counter grows and `sync_in_progress`
rises exactly under that condition). -/
theorem update_client_state_cases (s : ServerState) (cid : String)
    (m : InMessage) (now : Nat) :
    (s.clients.lookup cid = none → update_client_state s cid m now = s) ∧
    (∀ info, s.clients.lookup cid = some info →
      (update_client_state s cid m now).clients.lookup cid
        = some { info with
            state := m.state.getD info.state
            last_heartbeat := now
            state_changes := info.state_changes + 1 } ∧
      (∀ st, m.state = some st →
        (update_client_state s cid m now).clients.lookup cid
          = some { info with
              state := st
              last_heartbeat := now
              state_changes := info.state_changes + 1 }) ∧
      (update_client_state s cid m now).sync_operations
        = s.sync_operations
          + (if s.sync_in_progress = false ∧ now - s.last_sync > 30
             then 1 else 0) ∧
      (update_client_state s cid m now).sync_in_progress
        = (s.sync_in_progress || decide (now - s.last_sync > 30))) := by
  constructor
  · intro h
    unfold update_client_state
    rw [h]
  · intro info h
    have hl := update_client_state_lookup s cid m now info h
    have hsf := update_client_state_sync_fields s cid m now info h
    refine ⟨hl, ?_, hsf.1, hsf.2⟩
    intro st hst
    rw [hl]
    unfold updated_info
    rw [hst]
    rfl

/-- Witness for `update_client_state_cases`: a concrete registered
session receives a `state_update` to GREEN 100 seconds in, which also
triggers a synchronization. -/
theorem update_client_state_cases_witness :
    (update_client_state server_with_A1 "A1"
        { type := "state_update", intersection := none, position := none,
          state := some "GREEN" } 100).clients.lookup "A1"
      = some { intersection := "Centro", position := (1, 2),
               state := "GREEN", last_heartbeat := 100, state_changes := 1 } ∧
    (update_client_state server_with_A1 "A1"
        { type := "state_update", intersection := none, position := none,
          state := some "GREEN" } 100).sync_operations
      = server_with_A1.sync_operations + 1 := by
  have h := (update_client_state_cases server_with_A1 "A1"
    { type := "state_update", intersection := none, position := none,
      state := some "GREEN" } 100).2
    { intersection := "Centro", position := (1, 2), state := "RED",
      last_heartbeat := 0, state_changes := 0 } rfl
  exact ⟨h.2.1 "GREEN" rfl, h.2.2.1.trans (by rfl)⟩

/-! ### Claim C10: missing message fields are silently defaulted -/

/-- C10: `register` never rejects a message for missing fields — the
session is always created, with `intersection`, `position` and `state`
falling back to `'Unknown'`, `(0, 0)` and `'RED'` respectively when the
message omits them; a `state_update` missing its `state` field keeps the
session's state while still stamping `last_heartbeat` and incrementing
`state_changes`. -/
theorem missing_fields_defaulted (s : ServerState) (cid : String)
    (m : InMessage) (sock : Nat) (now : Nat) :
    ((register_client s cid m sock now).clients.lookup cid
      = some { intersection := m.intersection.getD "Unknown"
               position := m.position.getD (0, 0)
               state := m.state.getD "RED"
               last_heartbeat := now
               state_changes := 0 }) ∧
    (m.intersection = none →
      ((register_client s cid m sock now).clients.lookup cid).map
          ClientInfo.intersection = some "Unknown") ∧
    (m.position = none →
      ((register_client s cid m sock now).clients.lookup cid).map
          ClientInfo.position = some (0, 0)) ∧
    (m.state = none →
      ((register_client s cid m sock now).clients.lookup cid).map
          ClientInfo.state = some "RED") ∧
    (∀ info, s.clients.lookup cid = some info → m.state = none →
      (update_client_state s cid m now).clients.lookup cid
        = some { info with
            last_heartbeat := now
            state_changes := info.state_changes + 1 }) := by
  have hreg : (register_client s cid m sock now).clients.lookup cid
      = some { intersection := m.intersection.getD "Unknown"
               position := m.position.getD (0, 0)
               state := m.state.getD "RED"
               last_heartbeat := now
               state_changes := 0 } := by
    rw [register_client_clients]
    exact lookup_dict_set_self _ _ _
  refine ⟨hreg, ?_, ?_, ?_, ?_⟩
  · intro hi
    rw [hreg, hi]
    rfl
  · intro hp
    rw [hreg, hp]
    rfl
  · intro hs
    rw [hreg, hs]
    rfl
  · intro info h hs
    have hl := update_client_state_lookup s cid m now info h
    rw [hl]
    unfold updated_info
    rw [hs]
    rfl

/-- Witness for `missing_fields_defaulted`: registering with a message
that carries none of the optional fields, and a `state_update` without a
state for the registered concrete session. -/
theorem missing_fields_defaulted_witness :
    (register_client (initial_server_state 0) "B1"
        { type := "register", intersection := none, position := none,
          state := none } 9 3).clients.lookup "B1"
      = some { intersection := "Unknown", position := (0, 0),
               state := "RED", last_heartbeat := 3, state_changes := 0 } ∧
    (update_client_state server_with_A1 "A1"
        { type := "state_update", intersection := none, position := none,
          state := none } 10).clients.lookup "A1"
      = some { intersection := "Centro", position := (1, 2), state := "RED",
               last_heartbeat := 10, state_changes := 1 } := by
  constructor
  · exact ((missing_fields_defaulted (initial_server_state 0) "B1"
      { type := "register", intersection := none, position := none,
        state := none } 9 3).1).trans (by rfl)
  · exact ((missing_fields_defaulted server_with_A1 "A1"
      { type := "state_update", intersection := none, position := none,
        state := none } 9 10).2.2.2.2
      { intersection := "Centro", position := (1, 2), state := "RED",
        last_heartbeat := 0, state_changes := 0 } rfl rfl).trans (by rfl)

/-! ### Claim C5: emergency override scoping -/

theorem cond_send_foldl_eq (cls : List (String × ClientInfo))
    (s : ServerState) (msg : OutMessage) (tgt : String)
    (h : ∀ p ∈ cls, (s.client_sockets.lookup p.1).isSome = true) :
    cls.foldl
      (fun st p =>
        if p.2.intersection = tgt then (send_to_client st p.1 msg).1 else st)
      s
      = { s with sent_log := (s.sent_log
            ++ (cls.filter (fun p => p.2.intersection = tgt)).map
                (fun p => (p.1, msg))) } := by
  induction cls generalizing s with
  | nil => simp
  | cons p t ih =>
    rw [List.foldl_cons]
    by_cases hm : p.2.intersection = tgt
    · rw [if_pos hm]
      obtain ⟨sock, hk⟩ := Option.isSome_iff_exists.mp (h p (by simp))
      rw [send_to_client_eq_some s p.1 sock msg hk]
      rw [ih { s with sent_log := s.sent_log ++ [(p.1, msg)] }
        (fun q hq => h q (List.mem_cons_of_mem _ hq))]
      simp [List.filter_cons, hm]
    · rw [if_neg hm]
      rw [ih s (fun q hq => h q (List.mem_cons_of_mem _ hq))]
      simp [List.filter_cons, hm]

theorem emergency_override_truthy_eq (s : ServerState) (t : Option String)
    (est : String) (now : Nat) (htr : option_truthy t = true)
    (h : ∀ p ∈ s.clients, (s.client_sockets.lookup p.1).isSome = true) :
    emergency_override s t est now
      = { s with
          emergency_mode := true
          emergency_overrides := s.emergency_overrides + 1
          sent_log := (s.sent_log
            ++ (s.clients.filter (fun p => p.2.intersection = t.getD "")).map
                (fun p => (p.1, OutMessage.emergency_override est now t))) } := by
  unfold emergency_override
  rw [if_pos htr]
  rw [cond_send_foldl_eq s.clients
    { s with
      emergency_mode := true
      emergency_overrides := s.emergency_overrides + 1 }
    (OutMessage.emergency_override est now t) (t.getD "") h]

theorem emergency_override_falsy_eq (s : ServerState) (t : Option String)
    (est : String) (now : Nat) (htr : option_truthy t = false) :
    emergency_override s t est now
      = { s with
          emergency_mode := true
          emergency_overrides := s.emergency_overrides + 1
          sent_log := s.sent_log ++ s.client_sockets.map
            (fun p => (p.1, OutMessage.emergency_override est now t)) } := by
  unfold emergency_override
  rw [if_neg (by simp [htr]), broadcast_message_eq]

/-- C5 amended: an emergency override always raises `emergency_mode`
and counts the override; with a non-empty target intersection the
message goes exactly to the sessions whose `intersection` equals the
target; with no target — or with an empty-string target, which the
Python truthiness test treats as absent — it is broadcast to every
connected session. -/
theorem emergency_override_scoped (s : ServerState) (t : Option String)
    (est : String) (now : Nat)
    (hkeys : ∀ p ∈ s.clients, (s.client_sockets.lookup p.1).isSome = true) :
    (emergency_override s t est now).emergency_mode = true ∧
    (emergency_override s t est now).emergency_overrides
      = s.emergency_overrides + 1 ∧
    (∀ tgt, t = some tgt → tgt ≠ "" →
      (emergency_override s t est now).sent_log
        = s.sent_log
          ++ (s.clients.filter (fun p => p.2.intersection = tgt)).map
              (fun p => (p.1, OutMessage.emergency_override est now t))) ∧
    ((t = none ∨ t = some "") →
      (emergency_override s t est now).sent_log
        = s.sent_log ++ s.client_sockets.map
            (fun p => (p.1, OutMessage.emergency_override est now t))) := by
  by_cases htr : option_truthy t = true
  · rw [emergency_override_truthy_eq s t est now htr hkeys]
    refine ⟨rfl, rfl, ?_, ?_⟩
    · intro tgt ht hne
      subst ht
      rfl
    · intro hcase
      rcases hcase with hc | hc <;> subst hc <;> simp [option_truthy] at htr
  · have htr' : option_truthy t = false := by
      cases hb : option_truthy t
      · rfl
      · exact absurd hb htr
    rw [emergency_override_falsy_eq s t est now htr']
    refine ⟨rfl, rfl, ?_, fun _ => rfl⟩
    intro tgt ht hne
    subst ht
    simp [option_truthy, hne] at htr'

/-- The register message of an agent whose intersection name is the
empty string. -/
def register_message_empty : InMessage :=
  { type := "register", intersection := some "", position := some (0, 0),
    state := some "RED" }

/-- A server with client A1 at intersection Centro (socket 7) and client
A2 at the empty-string intersection (socket 8). -/
def server_two : ServerState :=
  register_client server_with_A1 "A2" register_message_empty 8 0

/-- C5 counterexample: an override targeted at the empty-string
intersection is treated as untargeted (Python truthiness) and broadcast
to everyone, so client A1 — whose intersection is Centro, not the
target — still receives the message, contradicting the claim that only
matching sessions receive a targeted override. -/
theorem emergency_override_empty_target_cex :
    (server_two.clients.lookup "A1").map ClientInfo.intersection
      = some "Centro" ∧
    ("Centro" : String) ≠ "" ∧
    ("A1", OutMessage.emergency_override "RED" 50 (some ""))
      ∈ (emergency_override server_two (some "") "RED" 50).sent_log := by
  refine ⟨rfl, by decide, ?_⟩
  decide

/-- Witness for `emergency_override_scoped`: on the concrete two-client
server, the override targeted at Centro reaches exactly A1, and the
untargeted override reaches both. -/
theorem emergency_override_scoped_witness :
    (emergency_override server_two (some "Centro") "RED" 60).sent_log
      = server_two.sent_log
        ++ [("A1", OutMessage.emergency_override "RED" 60 (some "Centro"))] ∧
    (emergency_override server_two none "GREEN" 61).sent_log
      = server_two.sent_log
        ++ [("A1", OutMessage.emergency_override "GREEN" 61 none),
            ("A2", OutMessage.emergency_override "GREEN" 61 none)] := by
  constructor
  · exact ((emergency_override_scoped server_two (some "Centro") "RED" 60
      (by decide)).2.2.1 "Centro" rfl (by decide)).trans (by rfl)
  · exact ((emergency_override_scoped server_two none "GREEN" 61
      (by decide)).2.2.2 (Or.inl rfl)).trans (by rfl)

/-! ### Claim C8: totalClients always equals the registry size -/

/-- The derived-field invariant of the claim: `total_clients` equals the
number of sessions in the registry. -/
def total_clients_inv (s : ServerState) : Prop :=
  s.total_clients = s.clients.length

theorem foldl_cond_send_registry (cls : List (String × ClientInfo))
    (s : ServerState) (msg : OutMessage) (tgt : String) :
    (cls.foldl
        (fun st p =>
          if p.2.intersection = tgt then (send_to_client st p.1 msg).1 else st)
        s).clients = s.clients ∧
    (cls.foldl
        (fun st p =>
          if p.2.intersection = tgt then (send_to_client st p.1 msg).1 else st)
        s).total_clients = s.total_clients := by
  induction cls generalizing s with
  | nil => exact ⟨rfl, rfl⟩
  | cons p t ih =>
    rw [List.foldl_cons]
    by_cases hm : p.2.intersection = tgt
    · rw [if_pos hm]
      have hs := send_to_client_fields s p.1 msg
      have ht := ih (send_to_client s p.1 msg).1
      exact ⟨ht.1.trans hs.2.2.1, ht.2.trans hs.2.2.2.1⟩
    · rw [if_neg hm]
      exact ih s

theorem emergency_override_registry (s : ServerState) (t : Option String)
    (est : String) (now : Nat) :
    (emergency_override s t est now).clients = s.clients ∧
    (emergency_override s t est now).total_clients = s.total_clients := by
  unfold emergency_override
  by_cases htr : option_truthy t = true
  · rw [if_pos htr]
    exact ⟨(foldl_cond_send_registry _ _ _ _).1,
      (foldl_cond_send_registry _ _ _ _).2⟩
  · rw [if_neg htr]
    exact ⟨(broadcast_message_fields _ _).2.2.1,
      (broadcast_message_fields _ _).2.2.2⟩

theorem foldl_acquire_step_registry (names : List String)
    (acc : ServerState × List String) :
    (names.foldl acquire_step acc).1.clients = acc.1.clients ∧
    (names.foldl acquire_step acc).1.total_clients = acc.1.total_clients := by
  induction names generalizing acc with
  | nil => exact ⟨rfl, rfl⟩
  | cons n t ih =>
    rw [List.foldl_cons]
    by_cases h : n = "clients_lock"
    · subst h
      rw [acquire_step_eq_pos]
      exact ih _
    · rw [acquire_step_eq_neg acc n h]
      exact ih acc

theorem acquire_locks_registry (s : ServerState) (names : List String) :
    (acquire_locks_in_order s names).1.clients = s.clients ∧
    (acquire_locks_in_order s names).1.total_clients = s.total_clients := by
  unfold acquire_locks_in_order
  exact ⟨(foldl_acquire_step_registry _ (s, [])).1,
    (foldl_acquire_step_registry _ (s, [])).2⟩

theorem release_step_registry (s : ServerState) (n : String) :
    (release_step s n).clients = s.clients ∧
    (release_step s n).total_clients = s.total_clients := by
  unfold release_step
  by_cases h : n = "clients_lock" <;> simp [h]

theorem release_locks_registry (s : ServerState) (names : List String) :
    (release_locks s names).clients = s.clients ∧
    (release_locks s names).total_clients = s.total_clients := by
  unfold release_locks
  generalize names.reverse = l
  induction l generalizing s with
  | nil => exact ⟨rfl, rfl⟩
  | cons n t ih =>
    rw [List.foldl_cons]
    have hs := release_step_registry s n
    have ht := ih (release_step s n)
    exact ⟨ht.1.trans hs.1, ht.2.trans hs.2⟩

theorem update_client_state_registry (s : ServerState) (cid : String)
    (m : InMessage) (now : Nat) :
    (update_client_state s cid m now).total_clients = s.total_clients ∧
    (update_client_state s cid m now).clients.length = s.clients.length := by
  unfold update_client_state
  cases h : s.clients.lookup cid with
  | none => exact ⟨rfl, rfl⟩
  | some info =>
    simp only
    split
    · refine ⟨(trigger_synchronization_fields _ _).2.2.2, ?_⟩
      rw [(trigger_synchronization_fields _ _).2.2.1]
      exact dict_set_length_of_mem s.clients cid _ (by simp [h])
    · exact ⟨rfl, dict_set_length_of_mem s.clients cid _ (by simp [h])⟩

theorem update_client_heartbeat_registry (s : ServerState) (cid : String)
    (now : Nat) :
    (update_client_heartbeat s cid now).total_clients = s.total_clients ∧
    (update_client_heartbeat s cid now).clients.length = s.clients.length := by
  unfold update_client_heartbeat
  cases h : s.clients.lookup cid with
  | none => exact ⟨rfl, rfl⟩
  | some info =>
    exact ⟨rfl, dict_set_length_of_mem s.clients cid _ (by simp [h])⟩

theorem register_client_inv (s : ServerState) (cid : String) (m : InMessage)
    (sock now : Nat) : total_clients_inv (register_client s cid m sock now) := by
  unfold total_clients_inv
  rw [register_client_clients]
  exact (send_to_client_fields _ _ _).2.2.2.1

theorem remove_client_inv (s : ServerState) (cid : String)
    (h : total_clients_inv s) : total_clients_inv (remove_client s cid) := by
  unfold total_clients_inv remove_client
  by_cases hc : (s.clients.lookup cid).isSome = true
  · rw [if_pos hc]
  · rw [if_neg hc]
    exact h

theorem classify_message_inv (s : ServerState) (cid : String) (m : InMessage)
    (sock now : Nat) (h : total_clients_inv s) :
    total_clients_inv (classify_message s cid m sock now) := by
  unfold classify_message
  split
  · exact register_client_inv _ _ _ _ _
  · split
    · unfold total_clients_inv at h ⊢
      rw [(update_client_state_registry s cid m now).1,
        (update_client_state_registry s cid m now).2]
      exact h
    · split
      · unfold total_clients_inv at h ⊢
        rw [(update_client_heartbeat_registry s cid now).1,
          (update_client_heartbeat_registry s cid now).2]
        exact h
      · exact h

theorem process_client_message_total (s : ServerState) (cid : String)
    (m : InMessage) (sock now : Nat) :
    (process_client_message s cid m sock now).total_clients
      = (classify_message
          (acquire_locks_in_order s
            (if m.type = "state_update" then ["clients_lock", "system_lock"]
             else ["clients_lock"])).1 cid m sock now).total_clients := by
  unfold process_client_message
  exact (release_locks_registry _ _).2

theorem process_client_message_clients (s : ServerState) (cid : String)
    (m : InMessage) (sock now : Nat) :
    (process_client_message s cid m sock now).clients
      = (classify_message
          (acquire_locks_in_order s
            (if m.type = "state_update" then ["clients_lock", "system_lock"]
             else ["clients_lock"])).1 cid m sock now).clients := by
  unfold process_client_message
  exact (release_locks_registry _ _).1

theorem process_client_message_inv (s : ServerState) (cid : String)
    (m : InMessage) (sock now : Nat) (h : total_clients_inv s) :
    total_clients_inv (process_client_message s cid m sock now) := by
  have hacq : ∀ names, total_clients_inv (acquire_locks_in_order s names).1 := by
    intro names
    unfold total_clients_inv
    rw [(acquire_locks_registry s names).2, (acquire_locks_registry s names).1]
    exact h
  unfold total_clients_inv
  rw [process_client_message_total, process_client_message_clients]
  exact classify_message_inv _ _ _ _ _ (hacq _)

theorem system_monitor_sweep_inv (s : ServerState) (now : Nat)
    (h : total_clients_inv s) :
    total_clients_inv (system_monitor_sweep s now) := by
  unfold system_monitor_sweep
  have hgen : ∀ (ids : List String) (st : ServerState), total_clients_inv st →
      total_clients_inv (ids.foldl remove_client st) := by
    intro ids
    induction ids with
    | nil => exact fun st hst => hst
    | cons i t ih =>
      intro st hst
      rw [List.foldl_cons]
      exact ih _ (remove_client_inv st i hst)
  exact hgen _ _ h

theorem emergency_override_inv (s : ServerState) (t : Option String)
    (est : String) (now : Nat) (h : total_clients_inv s) :
    total_clients_inv (emergency_override s t est now) := by
  unfold total_clients_inv
  rw [(emergency_override_registry s t est now).2,
    (emergency_override_registry s t est now).1]
  exact h

/-- C8: `total_clients` always equals the registry size: it holds of the
freshly constructed server, `register_client` and `remove_client`
re-derive it after changing membership, every dispatcher path and the
liveness sweep preserve it, and the operations that leave membership
unchanged (state update, heartbeat, synchronization, emergency
broadcast) do not alter the field at all. -/
theorem total_clients_tracks_registry (s : ServerState) (cid : String)
    (m : InMessage) (sock now now0 : Nat) (t : Option String) (est : String)
    (h : total_clients_inv s) :
    total_clients_inv (initial_server_state now0) ∧
    total_clients_inv (register_client s cid m sock now) ∧
    total_clients_inv (remove_client s cid) ∧
    total_clients_inv (update_client_state s cid m now) ∧
    total_clients_inv (update_client_heartbeat s cid now) ∧
    total_clients_inv (process_client_message s cid m sock now) ∧
    total_clients_inv (system_monitor_sweep s now) ∧
    total_clients_inv (emergency_override s t est now) ∧
    (update_client_state s cid m now).total_clients = s.total_clients ∧
    (update_client_heartbeat s cid now).total_clients = s.total_clients ∧
    (trigger_synchronization s now).total_clients = s.total_clients ∧
    (complete_synchronization s).total_clients = s.total_clients ∧
    (emergency_override s t est now).total_clients = s.total_clients := by
  refine ⟨rfl, register_client_inv s cid m sock now, remove_client_inv s cid h,
    ?_, ?_, process_client_message_inv s cid m sock now h,
    system_monitor_sweep_inv s now h, emergency_override_inv s t est now h,
    (update_client_state_registry s cid m now).1,
    (update_client_heartbeat_registry s cid now).1,
    (trigger_synchronization_fields s now).2.2.2, rfl,
    (emergency_override_registry s t est now).2⟩
  · unfold total_clients_inv
    rw [(update_client_state_registry s cid m now).1,
      (update_client_state_registry s cid m now).2]
    exact h
  · unfold total_clients_inv
    rw [(update_client_heartbeat_registry s cid now).1,
      (update_client_heartbeat_registry s cid now).2]
    exact h

/-- Witness for `total_clients_tracks_registry`: the concrete one-client
server satisfies the invariant, and so do removal and registration
applied to it. -/
theorem total_clients_tracks_registry_witness :
    total_clients_inv server_with_A1 ∧
    total_clients_inv (remove_client server_with_A1 "A1") ∧
    total_clients_inv
      (register_client server_with_A1 "A2" register_message_empty 8 0) := by
  refine ⟨rfl, ?_, ?_⟩
  · exact (total_clients_tracks_registry server_with_A1 "A1" unknown_message
      7 5 0 none "RED" rfl).2.2.1
  · exact (total_clients_tracks_registry server_with_A1 "A2"
      register_message_empty 8 0 0 none "RED" rfl).2.1

/-! ### Claim C3: the ordered-locking discipline -/

theorem filter_self_eq (p : String → Bool) (l : List String) :
    (l.filter p).filter p = l.filter p := by
  induction l with
  | nil => rfl
  | cons a t ih =>
    by_cases h : p a = true
    · simp [List.filter_cons, h, ih]
    · simp [List.filter_cons, h, ih]

theorem filter_const_clients (l : List String) :
    ((l.map (fun _ => "clients_lock")).filter (· = "clients_lock"))
      = l.map (fun _ => "clients_lock") := by
  induction l with
  | nil => rfl
  | cons a t ih => simp [List.filter_cons, ih]

theorem acquired_eq_filter (s : ServerState) (names : List String) :
    (acquire_locks_in_order s names).2
      = (sort_locks names).filter (· = "clients_lock") := by
  rw [(acquire_locks_in_order_fields s names).2.2]
  have h : ∀ a ∈ (sort_locks names).filter (· = "clients_lock"),
      (fun _ => "clients_lock") a = id a := by
    intro a ha
    rw [List.mem_filter] at ha
    have ha2 : a = "clients_lock" := by simpa using ha.2
    simp [ha2]
  rw [List.map_congr_left h, List.map_id]

theorem sort_locks_sorted (names : List String) :
    List.Sorted (fun a b => lock_sort_key a ≤ lock_sort_key b)
      (sort_locks names) := by
  haveI : IsTotal String (fun a b => lock_sort_key a ≤ lock_sort_key b) :=
    ⟨fun a b => Nat.le_total (lock_sort_key a) (lock_sort_key b)⟩
  haveI : IsTrans String (fun a b => lock_sort_key a ≤ lock_sort_key b) :=
    ⟨fun a b c hab hbc => Nat.le_trans hab hbc⟩
  exact List.sorted_insertionSort _ names

theorem acquire_release_balanced (s : ServerState) (names : List String) :
    (release_locks (acquire_locks_in_order s names).1
        (acquire_locks_in_order s names).2).clients_lock_count
      = s.clients_lock_count := by
  rw [(release_locks_fields _ _).2, (acquire_locks_in_order_fields s names).2.1,
    acquired_eq_filter, filter_self_eq]
  omega

theorem partial_acquire_release_balanced (s : ServerState) (l : List String) :
    (release_locks (l.foldl acquire_step (s, [])).1
        (l.foldl acquire_step (s, [])).2).clients_lock_count
      = s.clients_lock_count := by
  have hf := foldl_acquire_step_fields l (s, [])
  have hacq : (l.foldl acquire_step (s, [])).2
      = (l.filter (· = "clients_lock")).map (fun _ => "clients_lock") := by
    simpa using hf.2.2
  rw [(release_locks_fields _ _).2, hf.2.1, hacq, filter_const_clients,
    List.length_map]
  simp

theorem process_client_message_lock_count (s : ServerState) (cid : String)
    (m : InMessage) (sock now : Nat) :
    (process_client_message s cid m sock now).clients_lock_count
      = s.clients_lock_count := by
  unfold process_client_message
  simp only
  rw [(release_locks_fields _ _).2]
  simp only
  rw [(classify_message_messages_processed _ _ _ _ _).2,
    (acquire_locks_in_order_fields _ _).2.1, acquired_eq_filter,
    filter_self_eq]
  omega

/-- The hold count of the real registry lock once an
`acquire_locks_in_order` call has finished its exit path: on the
exception path the `except` handler has already released everything it
acquired; on the success path the caller's paired `release_locks` (its
`finally`) has run. -/
def acquire_exc_exit_count :
    Except ServerState (ServerState × List String) → Nat
  | Except.error e => e.clients_lock_count
  | Except.ok p => (release_locks p.1 p.2).clients_lock_count

/-- The hold count of the real registry lock once
`process_client_message` has finished, whether its dispatch body raised
(the `finally` released the locks before propagating) or returned
normally. -/
def dispatch_exc_exit_count : Except ServerState ServerState → Nat
  | Except.error e => e.clients_lock_count
  | Except.ok s' => s'.clients_lock_count

/-- C3: the lock helper acquires locks following the fixed global
resource order (the processed sequence is sorted by the resource-order
key and the acquired list is an in-order sublist of it), releases in
reverse order of acquisition (the last name is released first), and no
exit path leaves a lock held: the paired acquire/release brings the
hold count back to its initial value, an exception after any number of
acquisition steps leaves the count restored by the handler, and the
dispatcher's `finally` restores it whether or not the dispatch body
raised. -/
theorem ordered_locking_discipline (s : ServerState)
    (lock_names : List String) (fail_after : Option Nat) (cid : String)
    (m : InMessage) (sock now : Nat) (handler_fails : Bool) :
    List.Sorted (fun a b => lock_sort_key a ≤ lock_sort_key b)
      (sort_locks lock_names) ∧
    List.Sublist (acquire_locks_in_order s lock_names).2
      (sort_locks lock_names) ∧
    (∀ (x : String) (l' : List String),
      release_locks s (l' ++ [x]) = release_locks (release_step s x) l') ∧
    (release_locks (acquire_locks_in_order s lock_names).1
        (acquire_locks_in_order s lock_names).2).clients_lock_count
      = s.clients_lock_count ∧
    acquire_exc_exit_count (acquire_locks_in_order_exc s lock_names fail_after)
      = s.clients_lock_count ∧
    dispatch_exc_exit_count
        (process_client_message_exc s cid m sock now handler_fails)
      = s.clients_lock_count := by
  refine ⟨sort_locks_sorted lock_names, ?_, ?_, acquire_release_balanced s lock_names, ?_, ?_⟩
  · rw [acquired_eq_filter]
    exact List.filter_sublist _
  · intro x l'
    simp [release_locks, List.reverse_append]
  · cases fail_after with
    | none => exact acquire_release_balanced s lock_names
    | some k =>
      unfold acquire_locks_in_order_exc
      simp only
      by_cases hk : k < (sort_locks lock_names).length
      · rw [if_pos hk]
        exact partial_acquire_release_balanced s ((sort_locks lock_names).take k)
      · rw [if_neg hk]
        exact acquire_release_balanced s lock_names
  · cases handler_fails with
    | false => exact process_client_message_lock_count s cid m sock now
    | true =>
      exact acquire_release_balanced s
        (if m.type = "state_update" then ["clients_lock", "system_lock"]
         else ["clients_lock"])
